import Mathlib

/-! # Client session and request pipeline of the ai-study front end

A shallow embedding of

* `src/front/src/stores/auth.js` (the auth store: `setToken`, `login`, `fetchUser`,
  `logout`, `register`),
* `src/front/src/services/api.js` and `src/front/src/utils/http.js` (the two axios
  gateways with their request and response interceptors),
* `src/front/src/router/index.js` (the navigation guard).

Asynchronous functions are modelled by explicit state passing over a `World`; the answer of
the server to each request is an input chosen by the environment.
-/

namespace AiStudy

/-! ## JavaScript values -/

/-- An integer that a JavaScript number holds exactly and prints with all its decimal digits:
a safe integer, below 2^53 in absolute value. -/
structure SafeInt where
  val : Int
  safe : val.natAbs < 9007199254740992

/-- The numerals: a literal is read modulo 2^53, so every literal below 2^53 is itself. -/
instance instOfNatSafeInt (n : Nat) : OfNat SafeInt n where
  ofNat := ⟨((n % 9007199254740992 : Nat) : Int), by
    simp only [Int.natAbs_ofNat]
    exact Nat.mod_lt _ (by decide)⟩

/-- JavaScript values as they occur in parsed response bodies and in the store: JSON values
and `undefined`. Numbers are restricted to the safe integers; the fields of an object are
kept in lookup order. -/
inductive JSVal where
  | undefined : JSVal
  | null : JSVal
  | bool (b : Bool) : JSVal
  | num (n : SafeInt) : JSVal
  | str (s : String) : JSVal
  | arr (items : List JSVal) : JSVal
  | obj (fields : List (String × JSVal)) : JSVal

namespace JSVal

/-- Truthiness of a value (`!!v`, the test of `if (v)` and of `v || d`). -/
def truthy : JSVal → Bool
  | undefined => false
  | null => false
  | bool b => b
  | num n => n.val != 0
  | str s => s != ""
  | arr _ => true
  | obj _ => true

/-- The result of `typeof v === 'string'`. -/
def isString : JSVal → Bool
  | str _ => true
  | _ => false

/-- The result of `typeof v === 'object'`; it holds of `null` too. -/
def typeofObject : JSVal → Bool
  | null => true
  | arr _ => true
  | obj _ => true
  | _ => false

/-- The result of `Array.isArray(v)`. -/
def isArray : JSVal → Bool
  | arr _ => true
  | _ => false

/-- The value of `a || b`. -/
def orElse (a b : JSVal) : JSVal :=
  if a.truthy then a else b

mutual
/-- The coercion of the value to a string succeeds: it raises a `TypeError` exactly on an
object whose own field `toString` shadows the method (a parsed body holds no function), and
on an array that holds such a value. -/
def coerces : JSVal → Bool
  | arr items => coercesAll items
  | obj fields => (fields.lookup "toString").isNone
  | _ => true
/-- Every element of the array can be coerced to a string. -/
def coercesAll : List JSVal → Bool
  | [] => true
  | v :: rest => coerces v && coercesAll rest
end

mutual
/-- The text of the string coercion of a value that `coerces`, as performed by a template
literal, by `new Error(v)` and by `localStorage.setItem`: a safe integer prints its decimal
digits, an object without an own `toString` prints as `[object Object]`. Where a value of a
response body is coerced (`new Error(msg)` in `http.js`) the `TypeError` of a value that does
not coerce is modelled at the call; the actions of the store coerce their token with this
text (a token that does not coerce, which the source answers with a `TypeError`, is not
modelled there). -/
def toStr : JSVal → String
  | undefined => "undefined"
  | null => "null"
  | bool true => "true"
  | bool false => "false"
  | num n => toString n.val
  | str s => s
  | arr items => joinItems items
  | obj _ => "[object Object]"
/-- The elements of an array joined by commas (`Array.prototype.join`): `null` and
`undefined` elements contribute the empty string. -/
def joinItems : List JSVal → String
  | [] => ""
  | [undefined] => ""
  | [null] => ""
  | [v] => toStr v
  | undefined :: rest => "," ++ joinItems rest
  | null :: rest => "," ++ joinItems rest
  | v :: rest => toStr v ++ "," ++ joinItems rest
end

/-- The value of `v.k` for a value `v` that is neither `null` nor `undefined`, for a key `k`
that no prototype defines (`code`, `msg`, `detail`, `access_token`): the own field of an
object, `undefined` otherwise. -/
def get (v : JSVal) (k : String) : JSVal :=
  match v with
  | obj fields => (fields.lookup k).getD undefined
  | _ => undefined

/-- The value of `v?.k`: `undefined` when `v` is `null` or `undefined`. -/
def getOpt (v : JSVal) (k : String) : JSVal :=
  match v with
  | undefined => undefined
  | null => undefined
  | w => w.get k

/-- The value of `v[0]` for a value `v` that is neither `null` nor `undefined`. -/
def first (v : JSVal) : JSVal :=
  match v with
  | arr (x :: _) => x
  | _ => undefined

end JSVal

open JSVal

/-! ## Transport values -/

/-- The `response` member of a failed request: the HTTP status and the parsed body. -/
structure ErrorResponse where
  status : Int
  data : JSVal

/-- A rejection of the transport (an axios error); `response` is absent when no response was
received. -/
structure AxiosError where
  message : String
  response : Option ErrorResponse

/-- A response of the transport that counts as a success. -/
structure Response where
  status : Int
  data : JSVal

/-- What the server answers to one request: chosen by the environment. -/
abbrev Outcome := Except AxiosError Response

/-- A value thrown by the program, or the reason of a rejected promise. -/
inductive Thrown where
  /-- The error of the transport, passed on unchanged. -/
  | transport (e : AxiosError) : Thrown
  /-- A `TypeError` raised by reading a property of `null` or `undefined`, or by calling a
  value that is not a function. -/
  | typeError : Thrown
  /-- The object built by `new Error(message)`. -/
  | error (message : String) : Thrown

/-- The value of `v.k` with the `TypeError` of a read on `null` or `undefined`. -/
def getStrict (v : JSVal) (k : String) : Except Thrown JSVal :=
  match v with
  | .undefined => .error .typeError
  | .null => .error .typeError
  | w => .ok (w.get k)

/-- The result of `data.hasOwnProperty('code')`: a `TypeError` on `null` and `undefined`, and on
an object whose own field `hasOwnProperty` shadows the method (a parsed body holds no
function). -/
def hasOwnCode (data : JSVal) : Except Thrown Bool :=
  match data with
  | .undefined => .error .typeError
  | .null => .error .typeError
  | .obj fields =>
    if (fields.lookup "hasOwnProperty").isSome then .error .typeError
    else .ok (fields.lookup "code").isSome
  | _ => .ok false

/-- An outgoing request: the axios config as far as the program sets it. -/
structure RequestConfig where
  method : String
  url : String
  headers : List (String × String)
  data : JSVal

/-- The assignment `headers[k] = v`: replaces the entry in place or appends a new one. -/
def setHeader (headers : List (String × String)) (k v : String) : List (String × String) :=
  if (headers.lookup k).isSome then
    headers.map fun p => if p.1 == k then (k, v) else p
  else headers ++ [(k, v)]

/-- The value of `config.headers.Authorization`. -/
def RequestConfig.authorization (config : RequestConfig) : Option String :=
  config.headers.lookup "Authorization"

/-! ## The state of the application -/

/-- The mutable state the session code reads and writes. -/
structure World where
  /-- The `token` of the auth store. -/
  token : JSVal
  /-- The `user` of the auth store. -/
  user : JSVal
  /-- The entry `token` of `localStorage`. -/
  storage : Option String
  /-- The header `api.defaults.headers.common['Authorization']`. -/
  apiDefaultAuth : Option String
  /-- The header `http.defaults.headers.common['Authorization']`. -/
  httpDefaultAuth : Option String
  /-- The arguments of the calls of `ElMessage.error`, oldest first. -/
  messages : List JSVal
  /-- The arguments of the calls of `router.push`, oldest first. -/
  pushed : List String
  /-- The requests the `api` gateway handed to the transport, oldest first. -/
  sent : List RequestConfig
  /-- The module variable `initialAuthCheckDone` of the router. -/
  initialAuthCheckDone : Bool

/-- The value of `localStorage.getItem('token') || null`, the initial `token` of the store. -/
def storedToken (storage : Option String) : JSVal :=
  match storage with
  | some t => if t != "" then .str t else .null
  | none => .null

/-- The state at the start of the application, given the persisted entry. -/
def World.init (storage : Option String) : World :=
  { token := storedToken storage, user := .null, storage := storage, apiDefaultAuth := none,
    httpDefaultAuth := none, messages := [], pushed := [], sent := [],
    initialAuthCheckDone := false }

/-- The call `ElMessage.error(m)`. -/
def notify (w : World) (m : JSVal) : World :=
  { w with messages := w.messages ++ [m] }

/-! ## The auth store (`stores/auth.js`) -/

/-- The getter `isAuthenticated`: `!!state.token`. -/
def isAuthenticated (w : World) : Bool := w.token.truthy

/-- The action `setToken(token)`. -/
def setToken (w : World) (token : JSVal) : World :=
  { w with token := token, storage := some token.toStr,
           apiDefaultAuth := some ("Bearer " ++ token.toStr) }

/-- The action `logout()`. -/
def logout (w : World) : World :=
  { w with token := .null, user := .null, storage := none, apiDefaultAuth := none }

/-! ## The `api` gateway (`services/api.js`) -/

/-- The merge of the default headers of the `api` instance into a request, done by axios
before the request interceptors run: the default `Authorization` is used when the request
sets none. -/
def apiMergeDefaults (w : World) (config : RequestConfig) : RequestConfig :=
  match w.apiDefaultAuth with
  | some v =>
    if (config.headers.lookup "Authorization").isSome then config
    else { config with headers := config.headers ++ [("Authorization", v)] }
  | none => config

/-- The request interceptor of `api`: reads the persisted entry. -/
def apiRequestInterceptor (w : World) (config : RequestConfig) : RequestConfig :=
  match w.storage with
  | some token =>
    if token != "" then
      { config with headers := setHeader config.headers "Authorization" ("Bearer " ++ token) }
    else config
  | none => config

/-- The value of `error.response?.data?.detail`. -/
def errorDetail (error : AxiosError) : JSVal :=
  match error.response with
  | some r => r.data.getOpt "detail"
  | none => .undefined

/-- The rejection handler of the response interceptor of `api`: the state after it and the
reason it rejects with. -/
def apiResponseError (w : World) (error : AxiosError) : World × Thrown :=
  let w1 := if error.response.map (·.status) == some 401 then { w with storage := none } else w
  let message := (errorDetail error).orElse (.str "请求失败")
  (notify w1 message, .transport error)

/-- The request phase of a call through `api`: the request is merged with the defaults, passed
through the request interceptor and handed to the transport. -/
def apiSend (w : World) (config : RequestConfig) : World :=
  { w with sent := w.sent ++ [apiRequestInterceptor w (apiMergeDefaults w config)] }

/-- The response phase of a call through `api`: the fulfilment handler returns the response
unchanged, the rejection handler is `apiResponseError`. -/
def apiReceive (w : World) (outcome : Outcome) : World × Except Thrown Response :=
  match outcome with
  | .ok response => (w, .ok response)
  | .error e => ((apiResponseError w e).1, .error (apiResponseError w e).2)

/-! ## The asynchronous actions of the auth store -/

/-- The request of `fetchUser`. -/
def fetchUserRequest (w : World) : RequestConfig :=
  { method := "get", url := "/api/v1/auth/me",
    headers := [("Authorization", "Bearer " ++ w.token.toStr)], data := .undefined }

/-- The action `fetchUser()` up to its `await`: the profile request is sent. -/
def fetchUserStart (w : World) : World :=
  apiSend w (fetchUserRequest w)

/-- The action `fetchUser()` from its `await` on, given the answer of the server. -/
def fetchUserFinish (w : World) (outcome : Outcome) : World × Except Thrown Unit :=
  match apiReceive w outcome with
  | (w1, .ok response) => ({ w1 with user := response.data }, .ok ())
  | (w1, .error error) => (logout w1, .error error)

/-- The action `fetchUser()`, run without interruption. -/
def fetchUser (w : World) (outcome : Outcome) : World × Except Thrown Unit :=
  fetchUserFinish (fetchUserStart w) outcome

/-- The request of `login`. -/
def loginRequest (username password : String) : RequestConfig :=
  { method := "post", url := "/api/v1/auth/login",
    headers := [("Content-Type", "application/x-www-form-urlencoded")],
    data := .obj [("username", .str username), ("password", .str password)] }

/-- The action `login(username, password)`, given the answers of the server to the login
request and to the profile request. -/
def login (w : World) (username password : String) (loginOutcome profileOutcome : Outcome) :
    World × Except Thrown Bool :=
  match apiReceive (apiSend w (loginRequest username password)) loginOutcome with
  | (w1, .error error) => (w1, .error error)
  | (w1, .ok response) =>
    match getStrict response.data "access_token" with
    | .error error => (w1, .error error)
    | .ok accessToken =>
      if accessToken.truthy then
        match fetchUser (setToken w1 accessToken) profileOutcome with
        | (w2, .ok _) => (w2, .ok true)
        | (w2, .error error) => (w2, .error error)
      else (w1, .error (.error "登录失败：未获取到访问令牌"))

/-- The argument of `register`. -/
structure UserInfo where
  username : String
  email : String
  password : String

/-- The request of `register`. -/
def registerRequest (userInfo : UserInfo) : RequestConfig :=
  { method := "post", url := "/api/v1/auth/register", headers := [],
    data := .obj [("username", .str userInfo.username), ("email", .str userInfo.email),
                  ("password", .str userInfo.password), ("role", .str "student")] }

/-- The action `register(userInfo)`, given the answers of the server to the registration
request, to the login request and to the profile request. -/
def register (w : World) (userInfo : UserInfo)
    (registerOutcome loginOutcome profileOutcome : Outcome) : World × Except Thrown JSVal :=
  match apiReceive (apiSend w (registerRequest userInfo)) registerOutcome with
  | (w1, .error error) => (w1, .error error)
  | (w1, .ok response) =>
    if response.data.truthy then
      match login w1 userInfo.email userInfo.password loginOutcome profileOutcome with
      | (w2, .ok _) => (w2, .ok response.data)
      | (w2, .error error) => (w2, .error error)
    else (w1, .ok .undefined)

/-! ## The `http` gateway (`utils/http.js`) -/

/-- The evaluation of the module `utils/http.js` (lines 18 to 22): the persisted token, when
there is one, is copied into the default headers of `http`. Nothing in the program writes
this header again. -/
def loadHttp (w : World) : World :=
  match w.storage with
  | some token =>
    if token != "" then { w with httpDefaultAuth := some ("Bearer " ++ token) } else w
  | none => w

/-- The merge of the default headers of the `http` instance into a request, done by axios
before the request interceptors run: the default `Authorization` is used when the request
sets none. -/
def httpMergeDefaults (w : World) (config : RequestConfig) : RequestConfig :=
  match w.httpDefaultAuth with
  | some v =>
    if (config.headers.lookup "Authorization").isSome then config
    else { config with headers := config.headers ++ [("Authorization", v)] }
  | none => config

/-- The request interceptor of `http`, the function of lines 26 to 32: it reads the token of
the auth store. The request it receives has the defaults merged in already; the whole request
phase of the gateway is `httpRequest`. -/
def httpRequestInterceptor (w : World) (config : RequestConfig) : RequestConfig :=
  if w.token.truthy then
    { config with
      headers := setHeader config.headers "Authorization" ("Bearer " ++ w.token.toStr) }
  else config

/-- The value thrown by `throw new Error(v)` or passed on by `Promise.reject(new Error(v))`:
the error with the text of `v` as message, or the `TypeError` of the coercion when `v` does
not coerce. -/
def newError (v : JSVal) : Thrown :=
  if v.coerces then .error v.toStr else .typeError

/-- The branch of the fulfilment handler of `http` for a code other than 0 (lines 47 and 48):
the message is shown, then the error is built and the handler rejects. -/
def rejectEnvelope (w : World) (data : JSVal) : World × Except Thrown JSVal :=
  (notify w ((data.get "msg").orElse (.str "请求失败")),
    .error (newError ((data.get "msg").orElse (.str "请求失败"))))

/-- The request phase of a call through `http`: the request is merged with the defaults and
passed through the request interceptor; the result is what the transport sends. -/
def httpRequest (w : World) (config : RequestConfig) : RequestConfig :=
  httpRequestInterceptor w (httpMergeDefaults w config)

/-- The fulfilment handler of the response interceptor of `http`: the state after it and the
value it resolves to or the reason it rejects with. The test `code === 0` holds of the
number 0 only. -/
def httpResponseSuccess (w : World) (response : Response) : World × Except Thrown JSVal :=
  match hasOwnCode response.data with
  | .error error => (w, .error error)
  | .ok true =>
    match response.data.get "code" with
    | .num n => if n.val = 0 then (w, .ok response.data) else rejectEnvelope w response.data
    | _ => rejectEnvelope w response.data
  | .ok false => (w, .ok response.data)

/-- The message shown by the case 422 of the rejection handler of `http`, or the `TypeError`
of reading `detail` on a `null` body. -/
def validationMessage (validationErrors : JSVal) : Except Thrown JSVal :=
  if validationErrors.typeofObject then
    match getStrict validationErrors "detail" with
    | .error error => .error error
    | .ok detail =>
      if detail.truthy then
        let errorMessage := if detail.isArray then detail.first.getOpt "msg" else detail
        .ok (if errorMessage.isString then errorMessage else .str "输入数据验证失败")
      else .ok (.str "输入数据验证失败")
  else .ok (.str "输入数据验证失败")

/-- The rejection handler of the response interceptor of `http`: the state after it and the
reason it rejects with. -/
def httpResponseError (w : World) (error : AxiosError) : World × Thrown :=
  match error.response with
  | some response =>
    if response.status = 401 then
      ({ notify w (.str "未授权，请重新登录") with pushed := w.pushed ++ ["/login"] },
        .transport error)
    else if response.status = 403 then (notify w (.str "没有权限执行此操作"), .transport error)
    else if response.status = 404 then (notify w (.str "请求的资源不存在"), .transport error)
    else if response.status = 500 then (notify w (.str "服务器错误，请稍后重试"), .transport error)
    else if response.status = 422 then
      match validationMessage response.data with
      | .ok message => (notify w message, .transport error)
      | .error thrown => (w, thrown)
    else
      (notify w (if (response.data.getOpt "detail").isString then response.data.getOpt "detail"
                 else .str "请求失败"), .transport error)
  | none => (notify w (.str "网络错误，请检查您的网络连接"), .transport error)

/-! ## The navigation guard (`router/index.js`) -/

/-- A matched route record, as far as the guard reads it: `record.meta.requiresAuth`. -/
structure RouteRecord where
  requiresAuth : JSVal

/-- A target route (the argument `to` of the guard), as far as the guard reads it. -/
structure Route where
  /-- The name of the route, absent for a record without a name. -/
  name : Option String
  fullPath : String
  matched : List RouteRecord

/-- The argument of `next`. -/
inductive Next where
  /-- The call `next()`: the transition goes on unchanged. -/
  | proceed : Next
  /-- The call of `next` with a location object: a redirection to a named route. -/
  | redirect (name : String) (query : List (String × String)) : Next

/-- The guard from the computation of `requiresAuth` on (lines 95 to 103). -/
def guardDecision (w : World) (target : Route) : Next :=
  let requiresAuth := target.matched.any fun record => record.requiresAuth.truthy
  if requiresAuth && !isAuthenticated w then
    .redirect "Login" [("redirect", target.fullPath)]
  else if (target.name == some "Login" || target.name == some "Register") && isAuthenticated w then
    .redirect "Dashboard" []
  else .proceed

/-- The guard up to its `await`: either it is suspended in `fetchUser` (no decision yet) or it
ran to its end without hydration. -/
def guardStart (w : World) (target : Route) : World × Option Next :=
  if !w.initialAuthCheckDone then
    match w.storage with
    | some token =>
      if token != "" then (fetchUserStart (setToken w (.str token)), none)
      else
        ({ w with initialAuthCheckDone := true },
          some (guardDecision { w with initialAuthCheckDone := true } target))
    | none =>
      ({ w with initialAuthCheckDone := true },
        some (guardDecision { w with initialAuthCheckDone := true } target))
  else (w, some (guardDecision w target))

/-- The state after the hydration step of a suspended guard, given the answer of the server:
a failure of `fetchUser` is caught and answered by `logout()`, then the flag is set. -/
def guardHydrated (w : World) (outcome : Outcome) : World :=
  match fetchUserFinish w outcome with
  | (w1, .ok _) => { w1 with initialAuthCheckDone := true }
  | (w1, .error _) => { logout w1 with initialAuthCheckDone := true }

/-- The guard from its `await` on. -/
def guardResume (w : World) (target : Route) (outcome : Outcome) : World × Next :=
  (guardHydrated w outcome, guardDecision (guardHydrated w outcome) target)

/-- The route `/login` of the route table, as resolved by the router. -/
def loginRoute : Route :=
  { name := some "Login", fullPath := "/login", matched := [{ requiresAuth := .undefined }] }

/-- The route `/subjects` of the route table, as resolved by the router: the record of the
layout, marked `requiresAuth`, and the record of the child. -/
def subjectsRoute : Route :=
  { name := some "Subjects", fullPath := "/subjects",
    matched := [{ requiresAuth := .bool true }, { requiresAuth := .undefined }] }

/-- Some matched record of the route has a truthy `meta.requiresAuth`. -/
def Route.requiresAuth (target : Route) : Prop :=
  ∃ record ∈ target.matched, record.requiresAuth.truthy = true

/-! ## Runs of the auth store -/

/-- A call of an action of the auth store, together with the answers of the server to the
requests it makes. -/
inductive Action where
  | setToken (token : JSVal) : Action
  | login (username password : String) (loginOutcome profileOutcome : Outcome) : Action
  | fetchUser (outcome : Outcome) : Action
  | logout : Action
  | register (userInfo : UserInfo) (registerOutcome loginOutcome profileOutcome : Outcome) :
      Action

/-- The state after one call of an action that runs to its end without another call in
between. -/
def step (w : World) : Action → World
  | .setToken token => setToken w token
  | .login username password loginOutcome profileOutcome =>
    (login w username password loginOutcome profileOutcome).1
  | .fetchUser outcome => (fetchUser w outcome).1
  | .logout => logout w
  | .register userInfo registerOutcome loginOutcome profileOutcome =>
    (register w userInfo registerOutcome loginOutcome profileOutcome).1

/-- The state after a sequence of calls that do not overlap: each call runs to its end before
the next one starts. -/
def run (w : World) (actions : List Action) : World :=
  actions.foldl step w

/-- The action `login` when its `await` of the login request resumes with a response, up to
its next suspension: a truthy access token is installed and the profile request is sent;
otherwise `login` ends with an error and the state is left as it is. -/
def loginContinued (w : World) (response : Response) : World :=
  match getStrict response.data "access_token" with
  | .error _ => w
  | .ok accessToken =>
    if accessToken.truthy then fetchUserStart (setToken w accessToken) else w

/-- The response to the login request delivers a truthy access token: `login` goes on to
`fetchUser`. -/
def deliversToken (response : Response) : Bool :=
  match getStrict response.data "access_token" with
  | .error _ => false
  | .ok accessToken => accessToken.truthy

/-- The action `register` when its `await` resumes with a response: on a truthy body the
request of `login` is sent; otherwise `register` ends. -/
def registerContinued (w : World) (userInfo : UserInfo) (response : Response) : World :=
  if response.data.truthy then apiSend w (loginRequest userInfo.email userInfo.password)
  else w

/-- A piece of the program that runs without suspension and writes the state of the auth
store: a synchronous action, the handler of the response interceptor, or the part of an
asynchronous action between its call, its `await`s and its end. Calls that overlap
interleave their pieces. -/
inductive Piece where
  /-- The action `setToken`. -/
  | setToken (token : JSVal) : Piece
  /-- The action `logout`; also the `catch` branch of `fetchUser`, which calls it. -/
  | logout : Piece
  /-- The action `fetchUser` up to its `await`: the profile request is sent. -/
  | fetchUserCalled : Piece
  /-- The response interceptor of `api` on the answer to a request. -/
  | responseArrived (outcome : Outcome) : Piece
  /-- The action `fetchUser` when its `await` resumes with a response: `this.user` is set. -/
  | profileStored (data : JSVal) : Piece
  /-- The action `login` up to its first `await`. -/
  | loginCalled (username password : String) : Piece
  /-- The action `login` when its first `await` resumes with a response. -/
  | loginContinued (response : Response) : Piece
  /-- The action `register` up to its `await`. -/
  | registerCalled (userInfo : UserInfo) : Piece
  /-- The action `register` when its `await` resumes with a response. -/
  | registerContinued (userInfo : UserInfo) (response : Response) : Piece

/-- The state after a piece. -/
def applyPiece (w : World) : Piece → World
  | .setToken token => setToken w token
  | .logout => logout w
  | .fetchUserCalled => fetchUserStart w
  | .responseArrived outcome => (apiReceive w outcome).1
  | .profileStored data => { w with user := data }
  | .loginCalled username password => apiSend w (loginRequest username password)
  | .loginContinued response => loginContinued w response
  | .registerCalled userInfo => apiSend w (registerRequest userInfo)
  | .registerContinued userInfo response => registerContinued w userInfo response

/-- The state after a sequence of pieces, in the order in which they run. -/
def runPieces (w : World) (pieces : List Piece) : World :=
  pieces.foldl applyPiece w

/-- The pieces of `fetchUser` after its call: the answer passes the response interceptor,
then the profile is stored or, on a failure, `logout` runs. -/
def profilePieces : Outcome → List Piece
  | .ok response => [.responseArrived (.ok response), .profileStored response.data]
  | .error error => [.responseArrived (.error error), .logout]

/-- The pieces of `login` after its call. -/
def loginPieces (loginOutcome profileOutcome : Outcome) : List Piece :=
  match loginOutcome with
  | .ok response =>
    if deliversToken response then
      .responseArrived (.ok response) :: .loginContinued response ::
        profilePieces profileOutcome
    else [.responseArrived (.ok response), .loginContinued response]
  | .error error => [.responseArrived (.error error)]

/-- The pieces of a whole call of an action, in the order in which they run when no other
call comes in between. -/
def actionPieces : Action → List Piece
  | .setToken token => [.setToken token]
  | .login username password loginOutcome profileOutcome =>
    .loginCalled username password :: loginPieces loginOutcome profileOutcome
  | .fetchUser outcome => .fetchUserCalled :: profilePieces outcome
  | .logout => [.logout]
  | .register userInfo registerOutcome loginOutcome profileOutcome =>
    match registerOutcome with
    | .ok response =>
      if response.data.truthy then
        .registerCalled userInfo :: .responseArrived (.ok response) ::
          .registerContinued userInfo response :: loginPieces loginOutcome profileOutcome
      else
        [.registerCalled userInfo, .responseArrived (.ok response),
          .registerContinued userInfo response]
    | .error error => [.registerCalled userInfo, .responseArrived (.error error)]

/-- The pieces the amended invariant admits in a state: `setToken` with a truthy token, and
the storing of a profile only while the token is present; every other piece is admitted
always. -/
def Piece.admitted (w : World) : Piece → Prop
  | .setToken token => token.truthy = true
  | .profileStored _ => isAuthenticated w = true
  | _ => True

/-- Every piece of the sequence is admitted in the state in which it runs. -/
def piecesAdmitted (w : World) : List Piece → Prop
  | [] => True
  | p :: rest => p.admitted w ∧ piecesAdmitted (applyPiece w p) rest

/-- The states reached from an initial state by admitted pieces, in any order: the calls of
the actions may overlap at their `await`s. -/
inductive Reachable : World → Prop where
  | init (storage : Option String) : Reachable (World.init storage)
  | step (w : World) (p : Piece) : Reachable w → p.admitted w → Reachable (applyPiece w p)

/-- The calls that keep the invariant when they do not overlap: `setToken` with a truthy token
and `fetchUser` while the token is present; the other actions always. -/
def Action.admitted (w : World) : Action → Prop
  | .setToken token => token.truthy = true
  | .fetchUser _ => isAuthenticated w = true
  | _ => True

/-- Every call of a sequence of calls that do not overlap is admitted in the state it starts
in. -/
def runAdmitted (w : World) : List Action → Prop
  | [] => True
  | a :: rest => a.admitted w ∧ runAdmitted (step w a) rest

/-! ## Interleaved invocations of the guard -/

/-- The application seen by the router: the state and the targets of the invocations of the
guard that are suspended at the `await`. -/
structure GuardSystem where
  world : World
  pending : List Route

/-- An event of the router: a navigation starts (the guard runs up to its `await`), or the
profile request of a suspended invocation is answered (that invocation runs to its end). -/
inductive GuardEvent where
  | navigate (target : Route) : GuardEvent
  | answer (index : Nat) (outcome : Outcome) : GuardEvent

/-- One event of the router. -/
def GuardSystem.step (s : GuardSystem) : GuardEvent → GuardSystem
  | .navigate target =>
    match guardStart s.world target with
    | (w, none) => { world := w, pending := s.pending ++ [target] }
    | (w, some _) => { world := w, pending := s.pending }
  | .answer index outcome =>
    match s.pending.get? index with
    | some target =>
      { world := (guardResume s.world target outcome).1, pending := s.pending.eraseIdx index }
    | none => s

/-- The application after a sequence of events of the router. -/
def GuardSystem.run (s : GuardSystem) (events : List GuardEvent) : GuardSystem :=
  events.foldl GuardSystem.step s

/-- The number of profile requests sent so far: the number of starts of `fetchUser`. -/
def hydrations (w : World) : Nat :=
  (w.sent.filter fun request => request.url == "/api/v1/auth/me").length

/-! ## Concrete inputs -/

/-- A failed response with status 401. -/
def unauthorized : AxiosError :=
  { message := "Request failed with status code 401",
    response := some { status := 401, data := .obj [("detail", .str "Not authenticated")] } }

/-- A session with the token `t` and a hydrated profile, as left by a successful login. -/
def signedIn : World :=
  { token := .str "t", user := .obj [("username", .str "ann")], storage := some "t",
    apiDefaultAuth := some "Bearer t", httpDefaultAuth := none, messages := [], pushed := [],
    sent := [], initialAuthCheckDone := true }

/-- A request without headers. -/
def plainRequest : RequestConfig :=
  { method := "get", url := "/api/v1/subjects", headers := [], data := .undefined }

/-- A successful response whose body is the envelope with code 7 and msg "M". -/
def logicalFailure : Response :=
  { status := 200, data := .obj [("code", .num 7), ("msg", .str "M")] }

/-- A failed response with status 422 and the body `null`. -/
def validationNull : AxiosError :=
  { message := "Request failed with status code 422",
    response := some { status := 422, data := .null } }

/-- A failed response with status 422 and a body. -/
def validationError (data : JSVal) : AxiosError :=
  { message := "Request failed with status code 422",
    response := some { status := 422, data := data } }

/-- The message the specification names for a body of a status 422, following its words: the
msg of the first entry when detail is a non-empty sequence whose first entry has a string
msg, the detail when it is a non-empty string, the generic message in every other case. -/
def claimedValidationMessage (data : JSVal) : JSVal :=
  match data with
  | .obj fields =>
    match fields.lookup "detail" with
    | some (.arr (.obj entry :: _)) =>
      match entry.lookup "msg" with
      | some (.str m) => .str m
      | _ => .str "输入数据验证失败"
    | some (.str s) => if s = "" then .str "输入数据验证失败" else .str s
    | _ => .str "输入数据验证失败"
  | _ => .str "输入数据验证失败"

/-- The invariant of the auth store: a user other than `null` only together with a token
that is present. -/
def IdentityImpliesCredential (w : World) : Prop :=
  w.user ≠ .null → isAuthenticated w = true

/-- A successful answer to the profile request. -/
def profileAnswer : Outcome :=
  .ok { status := 200, data := .obj [("username", .str "ann")] }

/-- A successful answer to the login request, with the access token `t`. -/
def loginAnswer : Outcome :=
  .ok { status := 200, data := .obj [("access_token", .str "t")] }

/-- A whole invocation of the guard, run without interruption: the answer of the server is
used only when the invocation hydrates. -/
def guard (w : World) (target : Route) (outcome : Outcome) : World × Next :=
  match guardStart w target with
  | (w1, some decision) => (w1, decision)
  | (w1, none) => guardResume w1 target outcome

/-- The state after a sequence of invocations of the guard that do not overlap. -/
def guardSequence (w : World) (navigations : List (Route × Outcome)) : World :=
  navigations.foldl (fun v n => (guard v n.1 n.2).1) w

/-- An application started with the persisted token `t`: the module `utils/http.js` is
evaluated, the first navigation runs the guard and the profile request is answered with a
profile. -/
def restoredSession : World :=
  (guard (loadHttp (World.init (some "t"))) subjectsRoute profileAnswer).1

/-- The copies of the credential that the `api` gateway reads are settled: a present token
is the default header of `api`, and the persisted entry is that token or has been removed;
an absent token goes with no entry or an empty one. This is the state the first step of the
guard establishes. -/
def Settled (w : World) : Prop :=
  (w.token.truthy = true →
    w.apiDefaultAuth = some ("Bearer " ++ w.token.toStr) ∧
      (w.storage = none ∨ w.storage = some w.token.toStr)) ∧
  (w.token.truthy = false → w.storage = none ∨ w.storage = some "")

/-- The token of the store and the persisted entry agree: a present token is persisted as its
text, an absent token goes with no entry or an empty one. -/
def InSync (w : World) : Prop :=
  (w.token.truthy = true → w.storage = some w.token.toStr ∧ w.token.toStr ≠ "") ∧
  (w.token.truthy = false → w.storage = none ∨ w.storage = some "")

/-- The answer is a failed response with status 401. -/
def Unauthorized (outcome : Outcome) : Prop :=
  ∃ e, outcome = .error e ∧ e.response.map (·.status) = some 401

/-- The access token of a successful answer to the login request, when it is truthy, is a
string. -/
def StringToken (outcome : Outcome) : Prop :=
  ∀ r v, outcome = .ok r → getStrict r.data "access_token" = .ok v → v.truthy = true →
    ∃ t, v = .str t

/-- The calls that keep the two copies of the credential in agreement: `setToken` with a
string, and requests of `login` and `register` that are not answered with status 401 and
that deliver a string as access token. -/
def Action.quiet : Action → Prop
  | .setToken token => ∃ t, token = .str t
  | .login _ _ loginOutcome _ => ¬Unauthorized loginOutcome ∧ StringToken loginOutcome
  | .fetchUser _ => True
  | .logout => True
  | .register _ registerOutcome loginOutcome _ =>
    ¬Unauthorized registerOutcome ∧ ¬Unauthorized loginOutcome ∧ StringToken loginOutcome

/-- A request sent through `http` that is still in flight: the path of the page that issued
it and the failed response it is going to receive. -/
structure InFlight where
  origin : String
  error : AxiosError

/-- A request is in flight, `logout()` runs, then the response arrives and the rejection
handler of `http` runs: the state after it and the reason it rejects with. The handler reads
the error only, not the page the request came from. -/
def logoutThenResponse (w : World) (request : InFlight) : World × Thrown :=
  httpResponseError (logout w) request.error

/-- The query of a location given to `router.push` as a string, as the router parses it: the
characters after the first `?`, up to the first `#`; empty when the string has no `?`. -/
def pushQuery (location : String) : List Char :=
  ((location.data.takeWhile fun c => c != '#').dropWhile fun c => c != '?').drop 1

/-- The query that carries a path as the redirect target. -/
def redirectQuery (path : String) : List Char :=
  "redirect=".data ++ path.data

/-! # Theorems -/

/-! ## Safe integers -/

theorem safeInt_val_zero : (0 : SafeInt).val = 0 := rfl

theorem safeInt_eq_zero (n : SafeInt) (h : n.val = 0) : n = 0 := by
  cases n with
  | mk v hv =>
    simp only at h
    subst h
    rfl

/-! ## The decision of the navigation guard -/

theorem any_requiresAuth_iff (target : Route) :
    (target.matched.any fun record => record.requiresAuth.truthy) = true ↔
      target.requiresAuth := by
  simp [Route.requiresAuth, List.any_eq_true]

/-- C1: the guard redirects to Login with the query redirect = fullPath when the target
requires authentication and the session is not authenticated; otherwise it redirects to
Dashboard when the target is Login or Register and the session is authenticated; in every
other case it lets the transition go on. It never lets a route that requires authentication
go on while the session is not authenticated. -/
theorem guardDecision_spec (w : World) (target : Route) :
    (target.requiresAuth ∧ isAuthenticated w = false →
      guardDecision w target = .redirect "Login" [("redirect", target.fullPath)]) ∧
    (¬(target.requiresAuth ∧ isAuthenticated w = false) →
      (target.name = some "Login" ∨ target.name = some "Register") ∧ isAuthenticated w = true →
      guardDecision w target = .redirect "Dashboard" []) ∧
    (¬(target.requiresAuth ∧ isAuthenticated w = false) →
      ¬((target.name = some "Login" ∨ target.name = some "Register") ∧
        isAuthenticated w = true) →
      guardDecision w target = .proceed) ∧
    (target.requiresAuth → isAuthenticated w = false → guardDecision w target ≠ .proceed) := by
  have key := any_requiresAuth_iff target
  by_cases hr : target.requiresAuth <;> by_cases ha : isAuthenticated w = true <;>
    by_cases hl : target.name = some "Login" <;> by_cases hg : target.name = some "Register" <;>
    simp_all [guardDecision]

/-- C1 at a concrete input: an anonymous visit of `/subjects` is sent to Login with the
original path. -/
theorem guardDecision_spec_witness :
    guardDecision (World.init none) subjectsRoute =
      .redirect "Login" [("redirect", "/subjects")] :=
  (guardDecision_spec (World.init none) subjectsRoute).1
    ⟨⟨{ requiresAuth := .bool true }, by simp [subjectsRoute], rfl⟩, rfl⟩

/-! ## Status 401 in the two gateways -/

/-- The rejection handler of `http` on a status 401: one message, one push of `/login`, the
original error; the token, the user and the persisted entry are left as they were. -/
theorem httpResponseError_unauthorized (w : World) (message : String) (data : JSVal) :
    httpResponseError w { message := message, response := some { status := 401, data := data } } =
      ({ w with messages := w.messages ++ [.str "未授权，请重新登录"],
                pushed := w.pushed ++ ["/login"] },
        .transport { message := message, response := some { status := 401, data := data } }) := by
  simp [httpResponseError, notify]

/-- The rejection handler of `api` on a status 401: the persisted entry is removed, one message,
the original error; the token and the user of the store are left as they were and nothing is
pushed. -/
theorem apiResponseError_unauthorized (w : World) (message : String) (data : JSVal) :
    apiResponseError w { message := message, response := some { status := 401, data := data } } =
      ({ w with storage := none,
                messages := w.messages ++ [(data.getOpt "detail").orElse (.str "请求失败")] },
        .transport { message := message, response := some { status := 401, data := data } }) := by
  simp [apiResponseError, notify, errorDetail]

/-- C2, evaluated on a signed-in session and a failed response with status 401: the handler of
`http` pushes `/login` and rejects with the original error but leaves the token of the store
and the persisted entry in place, so the session is still authenticated and the guard sends
the pushed navigation to Login on to Dashboard; the handler of `api` removes the persisted
entry only, leaves the token of the store in place and pushes nothing. -/
theorem unauthorized_keeps_session :
    (httpResponseError signedIn unauthorized).2 = .transport unauthorized ∧
    (httpResponseError signedIn unauthorized).1.pushed = ["/login"] ∧
    (httpResponseError signedIn unauthorized).1.token = .str "t" ∧
    isAuthenticated (httpResponseError signedIn unauthorized).1 = true ∧
    (httpResponseError signedIn unauthorized).1.storage = some "t" ∧
    guardDecision (httpResponseError signedIn unauthorized).1 loginRoute =
      .redirect "Dashboard" [] ∧
    (apiResponseError signedIn unauthorized).2 = .transport unauthorized ∧
    (apiResponseError signedIn unauthorized).1.storage = none ∧
    (apiResponseError signedIn unauthorized).1.token = .str "t" ∧
    isAuthenticated (apiResponseError signedIn unauthorized).1 = true ∧
    (apiResponseError signedIn unauthorized).1.pushed = [] := by
  refine ⟨rfl, rfl, rfl, rfl, rfl, rfl, rfl, rfl, rfl, rfl, rfl⟩

/-! ## Failure of the hydration -/

/-- C3: for every state and every failing answer to the profile request, `fetchUser` ends with
token = null, user = null, no persisted entry and no default Authorization header, hence not
authenticated, and rejects with the error it received; this holds of the whole action and of
its second half run from any state. The state with a token and without a user does not
occur. -/
theorem fetchUser_failure_clears (w : World) (e : AxiosError) :
    (fetchUser w (.error e)).2 = .error (.transport e) ∧
    (fetchUser w (.error e)).1.token = .null ∧
    (fetchUser w (.error e)).1.user = .null ∧
    (fetchUser w (.error e)).1.storage = none ∧
    (fetchUser w (.error e)).1.apiDefaultAuth = none ∧
    isAuthenticated (fetchUser w (.error e)).1 = false ∧
    ¬(isAuthenticated (fetchUser w (.error e)).1 = true ∧
      (fetchUser w (.error e)).1.user = .null) ∧
    (fetchUserFinish w (.error e)).2 = .error (.transport e) ∧
    (fetchUserFinish w (.error e)).1.token = .null ∧
    (fetchUserFinish w (.error e)).1.user = .null ∧
    (fetchUserFinish w (.error e)).1.storage = none ∧
    (fetchUserFinish w (.error e)).1.apiDefaultAuth = none := by
  simp [fetchUser, fetchUserFinish, apiReceive, apiResponseError, logout, isAuthenticated,
    truthy]

/-- A run of `fetchUser` fails exactly when the profile request fails. -/
theorem fetchUser_fails_iff (w : World) (outcome : Outcome) :
    (∃ t, (fetchUser w outcome).2 = .error t) ↔ ∃ e, outcome = .error e := by
  cases outcome with
  | error e => simp [fetchUser, fetchUserFinish, apiReceive]
  | ok r => simp [fetchUser, fetchUserFinish, apiReceive]

/-! ## The envelope of a successful response -/

/-- The fulfilment handler of `http` resolves to the body whenever its test finds an own
field `code` equal to the number 0. -/
theorem httpResponseSuccess_code_zero (w : World) (status : Int) (data : JSVal)
    (hown : hasOwnCode data = .ok true) (hcode : data.get "code" = .num 0) :
    httpResponseSuccess w { status := status, data := data } = (w, .ok data) := by
  simp [httpResponseSuccess, hown, hcode, safeInt_val_zero]

/-- The fulfilment handler of `http` resolves to the body when the body has no own field
`code`. -/
theorem httpResponseSuccess_bare (w : World) (status : Int) (data : JSVal)
    (hown : hasOwnCode data = .ok false) :
    httpResponseSuccess w { status := status, data := data } = (w, .ok data) := by
  simp [httpResponseSuccess, hown]

/-- C4 as stated fails: on the body with code 0 and data "X" the handler resolves to the whole
body, which is not the payload "X". -/
theorem httpResponseSuccess_not_unwrapped :
    (httpResponseSuccess (World.init none)
        { status := 200, data := .obj [("code", .num 0), ("data", .str "X")] }).2 =
      .ok (.obj [("code", .num 0), ("data", .str "X")]) ∧
    (httpResponseSuccess (World.init none)
        { status := 200, data := .obj [("code", .num 0), ("data", .str "X")] }).2 ≠
      .ok (.str "X") := by
  constructor
  · rfl
  · simp [httpResponseSuccess, hasOwnCode, JSVal.get, List.lookup, safeInt_val_zero]

/-- C4, amended: for every payload X, on the wrapped body with code 0 and data X the handler
resolves to the response body itself, the object with the fields code and data: the layer of
the transport is removed, the envelope is not; the state is unchanged and nothing is
notified. -/
theorem httpResponseSuccess_wrapped (w : World) (status : Int) (X : JSVal) :
    httpResponseSuccess w { status := status, data := .obj [("code", .num 0), ("data", X)] } =
      (w, .ok (.obj [("code", .num 0), ("data", X)])) ∧
    (.obj [("code", .num 0), ("data", X)] : JSVal).get "data" = X := by
  constructor
  · simp [httpResponseSuccess, hasOwnCode, JSVal.get, List.lookup, safeInt_val_zero]
  · simp [JSVal.get, List.lookup]

/-! ## The logical failure of an envelope -/

/-- C5 as stated fails: on the body with code 7 and the number 42 as msg, which is not a
non-empty string, the handler notifies the number 42 and not the generic message; on the body
with code 1 whose msg is an object with an own field `toString`, the handler notifies that
object and rejects with the `TypeError` of `new Error(msg)`, not with an error that carries
the notified text; and on a body with code 7 whose own field `hasOwnProperty` shadows the
method, the test of the handler raises a `TypeError` and nothing is notified. -/
theorem httpResponseSuccess_truthy_msg :
    (httpResponseSuccess (World.init none)
        { status := 200, data := .obj [("code", .num 7), ("msg", .num 42)] }).1.messages =
      [.num 42] ∧
    (.num 42 : JSVal) ≠ .str "请求失败" ∧
    httpResponseSuccess (World.init none)
        { status := 200,
          data := .obj [("code", .num 1), ("msg", .obj [("toString", .num 1)])] } =
      ({ World.init none with messages := [.obj [("toString", .num 1)]] },
        .error .typeError) ∧
    (httpResponseSuccess (World.init none)
        { status := 200,
          data := .obj [("code", .num 7), ("msg", .str "M"), ("hasOwnProperty", .bool true)] }) =
      (World.init none, .error .typeError) := by
  refine ⟨rfl, ?_, rfl, rfl⟩
  simp

/-- The branch of the handler for a code other than 0 is taken on every object with an own
field code other than the number 0 and without an own field `hasOwnProperty`. -/
theorem httpResponseSuccess_rejectEnvelope (w : World) (status : Int)
    (fields : List (String × JSVal)) (code : JSVal)
    (hshadow : fields.lookup "hasOwnProperty" = none)
    (hcode : fields.lookup "code" = some code) (hne : code ≠ .num 0) :
    httpResponseSuccess w { status := status, data := .obj fields } =
      rejectEnvelope w (.obj fields) := by
  simp only [httpResponseSuccess, hasOwnCode, hshadow, JSVal.get, hcode]
  cases code with
  | num n =>
    by_cases hn : n.val = 0
    · exact absurd (congrArg JSVal.num (safeInt_eq_zero n hn)) hne
    · simp [hn]
  | _ => rfl

/-- C5, amended: for every successful response whose body is an object with an own field code
other than the number 0 and without an own field named hasOwnProperty, the handler rejects
(it never resolves) and raises exactly one notification: the msg of the body when msg is
truthy (so when it is a non-empty string) and the generic message otherwise. It rejects with
an Error whose message is the string coercion of the notified value, which is the notified
text when msg is a string or is falsy; when the notified value cannot be coerced to a string
(an object with an own field toString, or an array that holds one) it rejects with the
TypeError of that coercion instead. -/
theorem httpResponseSuccess_logical_failure (w : World) (status : Int)
    (fields : List (String × JSVal)) (code : JSVal)
    (hshadow : fields.lookup "hasOwnProperty" = none)
    (hcode : fields.lookup "code" = some code) (hne : code ≠ .num 0) :
    (httpResponseSuccess w { status := status, data := .obj fields }).1 =
      { w with messages :=
          w.messages ++ [((JSVal.obj fields).get "msg").orElse (.str "请求失败")] } ∧
    (∃ thrown,
      (httpResponseSuccess w { status := status, data := .obj fields }).2 = .error thrown) ∧
    (((JSVal.obj fields).get "msg").truthy = true →
      ((JSVal.obj fields).get "msg").orElse (.str "请求失败") = (JSVal.obj fields).get "msg") ∧
    (((JSVal.obj fields).get "msg").truthy = false →
      ((JSVal.obj fields).get "msg").orElse (.str "请求失败") = .str "请求失败") ∧
    ((((JSVal.obj fields).get "msg").orElse (.str "请求失败")).coerces = true →
      (httpResponseSuccess w { status := status, data := .obj fields }).2 =
        .error (.error (((JSVal.obj fields).get "msg").orElse (.str "请求失败")).toStr)) ∧
    (∀ m, ((JSVal.obj fields).get "msg").orElse (.str "请求失败") = .str m →
      (httpResponseSuccess w { status := status, data := .obj fields }).2 =
        .error (.error m)) ∧
    ((((JSVal.obj fields).get "msg").orElse (.str "请求失败")).coerces = false →
      (httpResponseSuccess w { status := status, data := .obj fields }).2 =
        .error .typeError) := by
  rw [httpResponseSuccess_rejectEnvelope w status fields code hshadow hcode hne]
  refine ⟨rfl, ⟨_, rfl⟩, ?_, ?_, ?_, ?_, ?_⟩
  · intro h
    simp [JSVal.orElse, h]
  · intro h
    simp [JSVal.orElse, h]
  · intro h
    simp [rejectEnvelope, newError, h]
  · intro m h
    simp [rejectEnvelope, newError, h, JSVal.coerces, JSVal.toStr]
  · intro h
    simp [rejectEnvelope, newError, h]

/-- C5 at the input of the specification: the body with code 7 and msg "M" is rejected, "M" is
the one notification and the message of the rejection. -/
theorem httpResponseSuccess_logical_failure_witness :
    (httpResponseSuccess (World.init none) logicalFailure).1 =
      { World.init none with messages := [.str "M"] } ∧
    (httpResponseSuccess (World.init none) logicalFailure).2 = .error (.error "M") :=
  have h := httpResponseSuccess_logical_failure (World.init none) 200
    [("code", .num 7), ("msg", .str "M")] (.num 7) rfl rfl
    (fun hc => absurd (congrArg SafeInt.val (JSVal.num.inj hc)) (by decide))
  ⟨h.1, h.2.2.2.2.2.1 "M" rfl⟩

/-! ## The detail of a status 422 -/

/-- On every body other than `null`, the message of the case 422 is the one the specification
names; on `null` the read of `detail` raises a `TypeError`. -/
theorem validationMessage_eq_claimed (data : JSVal) (hnull : data ≠ .null) :
    validationMessage data = .ok (claimedValidationMessage data) := by
  cases data with
  | null => exact absurd rfl hnull
  | obj fields =>
    simp only [validationMessage, typeofObject, getStrict, JSVal.get, claimedValidationMessage]
    cases hd : fields.lookup "detail" with
    | none => simp [truthy]
    | some detail =>
      cases detail with
      | arr items =>
        cases items with
        | nil => simp [truthy, isArray, first, getOpt, JSVal.get, isString]
        | cons x rest =>
          cases x with
          | obj entry =>
            cases hm : entry.lookup "msg" with
            | none => simp [truthy, isArray, first, getOpt, JSVal.get, isString, hm]
            | some m => cases m <;> simp [truthy, isArray, first, getOpt, JSVal.get, isString, hm]
          | _ => simp [truthy, isArray, first, getOpt, JSVal.get, isString]
      | str s =>
        by_cases hs : s = "" <;> simp [truthy, isArray, isString, hs]
      | bool b => cases b <;> simp [truthy, isArray, isString]
      | num n => by_cases hn : n.val = 0 <;> simp [truthy, isArray, isString, hn]
      | _ => simp [truthy, isArray, isString]
  | _ => simp [validationMessage, typeofObject, getStrict, JSVal.get, claimedValidationMessage, truthy]

/-- The rejection handler of `http` on a status 422 with a body other than `null`: exactly one
notification, the message the specification names, and the original error. -/
theorem httpResponseError_validation (w : World) (data : JSVal) (hnull : data ≠ .null) :
    httpResponseError w (validationError data) =
      ({ w with messages := w.messages ++ [claimedValidationMessage data] },
        .transport (validationError data)) := by
  simp [httpResponseError, validationError, validationMessage_eq_claimed data hnull, notify]

/-- The two inputs of the specification for the status 422. -/
theorem validationMessage_examples :
    validationMessage (.obj [("detail", .arr [.obj [("msg", .str "field required")]])]) =
      .ok (.str "field required") ∧
    validationMessage (.obj [("detail", .str "bad input")]) = .ok (.str "bad input") :=
  ⟨rfl, rfl⟩

/-- C6, evaluated on a failed response with status 422 and the body `null`: the test
`typeof validationErrors === 'object'` holds of `null`, the read of `detail` raises a
`TypeError`, so no notification is raised and the handler rejects with the `TypeError`
instead of the original error. -/
theorem httpResponseError_validation_null :
    httpResponseError (World.init none) validationNull = (World.init none, .typeError) ∧
    (httpResponseError (World.init none) validationNull).1.messages = [] ∧
    (httpResponseError (World.init none) validationNull).2 ≠ .transport validationNull := by
  refine ⟨rfl, rfl, ?_⟩
  simp [httpResponseError, validationNull, validationMessage, typeofObject, getStrict]

/-! ## The credential of a request -/

theorem lookup_map_replace (headers : List (String × String)) (k v : String) :
    (headers.map fun p => if p.1 == k then (k, v) else p).lookup k =
      (headers.lookup k).map fun _ => v := by
  induction headers with
  | nil => rfl
  | cons p rest ih =>
    obtain ⟨a, b⟩ := p
    by_cases hk : a = k
    · subst hk
      simp only [List.map_cons, beq_self_eq_true, if_true, List.lookup_cons, Option.map_some']
    · have hk2 : (a == k) = false := by simpa using hk
      have hk3 : (k == a) = false := by simpa using fun h => hk h.symm
      simp only [List.map_cons, hk2, Bool.false_eq_true, if_false, List.lookup_cons, hk3]
      exact ih

theorem lookup_append_new (headers : List (String × String)) (k v : String)
    (h : headers.lookup k = none) : (headers ++ [(k, v)]).lookup k = some v := by
  induction headers with
  | nil => simp [List.lookup]
  | cons p rest ih =>
    obtain ⟨a, b⟩ := p
    by_cases hk : k = a
    · subst hk
      simp [List.lookup] at h
    · have hk2 : (k == a) = false := by simpa using hk
      simp only [List.lookup, hk2] at h
      simpa [List.lookup, hk2] using ih h

theorem lookup_setHeader (headers : List (String × String)) (k v : String) :
    (setHeader headers k v).lookup k = some v := by
  unfold setHeader
  cases h : headers.lookup k with
  | none => simpa using lookup_append_new headers k v h
  | some x => simp only [Option.isSome_some, if_true, lookup_map_replace, h, Option.map_some']

/-- The request interceptor of `http` writes the current token of the store when it is present
and returns the request unchanged when it is absent. -/
theorem httpRequestInterceptor_spec (w : World) (config : RequestConfig) :
    (isAuthenticated w = true →
      (httpRequestInterceptor w config).authorization = some ("Bearer " ++ w.token.toStr)) ∧
    (isAuthenticated w = false → httpRequestInterceptor w config = config) := by
  constructor
  · intro h
    simp only [isAuthenticated] at h
    simp [httpRequestInterceptor, h, RequestConfig.authorization, lookup_setHeader]
  · intro h
    simp only [isAuthenticated] at h
    simp [httpRequestInterceptor, h]

/-- The request interceptor of `api` writes the persisted entry when it is present and not
empty and returns the request unchanged otherwise; it does not read the store. -/
theorem apiRequestInterceptor_spec (w : World) (config : RequestConfig) :
    (∀ t, w.storage = some t → t ≠ "" →
      (apiRequestInterceptor w config).authorization = some ("Bearer " ++ t)) ∧
    (w.storage = none → apiRequestInterceptor w config = config) ∧
    (w.storage = some "" → apiRequestInterceptor w config = config) := by
  refine ⟨?_, ?_, ?_⟩
  · intro t h ht
    simp [apiRequestInterceptor, h, ht, RequestConfig.authorization, lookup_setHeader]
  · intro h
    simp [apiRequestInterceptor, h]
  · intro h
    simp [apiRequestInterceptor, h]

/-- No action of the store writes the default header of `http`: `logout` deletes the default
header of `api` only. -/
theorem logout_httpDefaultAuth (w : World) :
    (logout w).httpDefaultAuth = w.httpDefaultAuth ∧ (logout w).apiDefaultAuth = none :=
  ⟨rfl, rfl⟩

/-- While the token of the store is absent, a request through `http` that sets no
Authorization header of its own is sent with the default header copied when the module was
evaluated, if there is one: the interceptor returns the merged request unchanged. -/
theorem httpRequest_absent (w : World) (config : RequestConfig) (v : String)
    (habsent : isAuthenticated w = false) (hdefault : w.httpDefaultAuth = some v)
    (hown : config.authorization = none) :
    (httpRequest w config).authorization = some v := by
  have hlookup : config.headers.lookup "Authorization" = none := hown
  have hmerge : httpMergeDefaults w config =
      { config with headers := config.headers ++ [("Authorization", v)] } := by
    simp [httpMergeDefaults, hdefault, hlookup]
  unfold httpRequest
  rw [(httpRequestInterceptor_spec w (httpMergeDefaults w config)).2 habsent, hmerge]
  exact lookup_append_new config.headers "Authorization" v hlookup

/-- While the token of the store is present, a request through `http` is sent with that
token, whatever the default header is. -/
theorem httpRequest_present (w : World) (config : RequestConfig)
    (hpresent : isAuthenticated w = true) :
    (httpRequest w config).authorization = some ("Bearer " ++ w.token.toStr) :=
  (httpRequestInterceptor_spec w (httpMergeDefaults w config)).1 hpresent

/-- C7, evaluated on an application started with the persisted token `t`, after the guard has
hydrated the session (the store and the persisted entry agree: both hold `t`): a request
through `http` carries `Bearer t`; then `logout()` runs and the token of the store is
absent, but the default header that `http.js` copied from `localStorage` when it was
evaluated is still `Bearer t`, the interceptor returns the merged request unchanged, and
the next request through `http` is sent with `Bearer t`, a credential captured earlier and
not the one current at its send, which is none. -/
theorem httpRequest_after_logout :
    restoredSession.token = .str "t" ∧
    restoredSession.storage = some "t" ∧
    restoredSession.initialAuthCheckDone = true ∧
    (httpRequest restoredSession plainRequest).authorization = some "Bearer t" ∧
    (logout restoredSession).token = .null ∧
    isAuthenticated (logout restoredSession) = false ∧
    (logout restoredSession).storage = none ∧
    (logout restoredSession).apiDefaultAuth = none ∧
    (logout restoredSession).httpDefaultAuth = some "Bearer t" ∧
    httpRequestInterceptor (logout restoredSession)
        (httpMergeDefaults (logout restoredSession) plainRequest) =
      httpMergeDefaults (logout restoredSession) plainRequest ∧
    (httpRequest (logout restoredSession) plainRequest).authorization = some "Bearer t" := by
  refine ⟨rfl, rfl, rfl, rfl, rfl, rfl, rfl, rfl, rfl, rfl, rfl⟩

/-! ## The invariant of the auth store -/

theorem identityImpliesCredential_of_eq {w v : World} (ht : v.token = w.token)
    (hu : v.user = w.user) (h : IdentityImpliesCredential w) : IdentityImpliesCredential v := by
  intro hv
  rw [hu] at hv
  simpa [isAuthenticated, ht] using h hv

theorem apiSend_token (w : World) (config : RequestConfig) :
    (apiSend w config).token = w.token ∧ (apiSend w config).user = w.user := ⟨rfl, rfl⟩

theorem apiReceive_token (w : World) (outcome : Outcome) :
    (apiReceive w outcome).1.token = w.token ∧ (apiReceive w outcome).1.user = w.user := by
  cases outcome with
  | ok r => exact ⟨rfl, rfl⟩
  | error e =>
    simp only [apiReceive, apiResponseError, notify]
    split <;> exact ⟨rfl, rfl⟩

/-- After `fetchUser`, run while the token is present, the invariant holds. -/
theorem fetchUser_invariant (w : World) (outcome : Outcome) (h : isAuthenticated w = true) :
    IdentityImpliesCredential (fetchUser w outcome).1 := by
  cases outcome with
  | ok r =>
    intro _
    simpa [fetchUser, fetchUserFinish, fetchUserStart, apiReceive, apiSend, isAuthenticated]
      using h
  | error e =>
    intro hu
    simp [fetchUser, fetchUserFinish, apiReceive, logout] at hu

/-- The action `login` keeps the invariant. -/
theorem login_invariant (w : World) (username password : String)
    (loginOutcome profileOutcome : Outcome) (h : IdentityImpliesCredential w) :
    IdentityImpliesCredential (login w username password loginOutcome profileOutcome).1 := by
  have base : IdentityImpliesCredential
      (apiReceive (apiSend w (loginRequest username password)) loginOutcome).1 :=
    identityImpliesCredential_of_eq
      ((apiReceive_token _ _).1.trans (apiSend_token _ _).1)
      ((apiReceive_token _ _).2.trans (apiSend_token _ _).2) h
  cases loginOutcome with
  | error e => simpa [login, apiReceive] using base
  | ok response =>
    simp only [login, apiReceive] at base ⊢
    cases hget : getStrict response.data "access_token" with
    | error t => simpa using base
    | ok accessToken =>
      by_cases htruthy : accessToken.truthy = true
      · have hauth : isAuthenticated
            (setToken (apiSend w (loginRequest username password)) accessToken) = true := by
          simpa [isAuthenticated, setToken] using htruthy
        have := fetchUser_invariant _ profileOutcome hauth
        simp only [htruthy, if_true]
        split <;> simp_all
      · simpa [htruthy] using base

/-- The action `register` keeps the invariant. -/
theorem register_invariant (w : World) (userInfo : UserInfo)
    (registerOutcome loginOutcome profileOutcome : Outcome) (h : IdentityImpliesCredential w) :
    IdentityImpliesCredential
      (register w userInfo registerOutcome loginOutcome profileOutcome).1 := by
  have base : IdentityImpliesCredential
      (apiReceive (apiSend w (registerRequest userInfo)) registerOutcome).1 :=
    identityImpliesCredential_of_eq
      ((apiReceive_token _ _).1.trans (apiSend_token _ _).1)
      ((apiReceive_token _ _).2.trans (apiSend_token _ _).2) h
  cases registerOutcome with
  | error e => simpa [register, apiReceive] using base
  | ok response =>
    simp only [register, apiReceive] at base ⊢
    by_cases htruthy : response.data.truthy = true
    · have := login_invariant _ userInfo.email userInfo.password loginOutcome profileOutcome base
      simp only [htruthy, if_true]
      split <;> simp_all
    · simpa [htruthy] using base

/-- Every piece keeps the invariant, as long as `setToken` receives a truthy token and a
profile is stored while the token is present. -/
theorem applyPiece_invariant (w : World) (p : Piece) (h : IdentityImpliesCredential w)
    (hadm : p.admitted w) : IdentityImpliesCredential (applyPiece w p) := by
  cases p with
  | setToken token =>
    intro _
    simpa [applyPiece, setToken, isAuthenticated, Piece.admitted] using hadm
  | logout =>
    intro hu
    exact absurd rfl hu
  | fetchUserCalled => exact identityImpliesCredential_of_eq rfl rfl h
  | responseArrived outcome =>
    exact identityImpliesCredential_of_eq (apiReceive_token _ _).1 (apiReceive_token _ _).2 h
  | profileStored data =>
    intro _
    exact hadm
  | loginCalled username password => exact identityImpliesCredential_of_eq rfl rfl h
  | loginContinued response =>
    simp only [applyPiece, loginContinued]
    cases hget : getStrict response.data "access_token" with
    | error t => exact h
    | ok accessToken =>
      by_cases htruthy : accessToken.truthy = true
      · intro _
        simp [htruthy, fetchUserStart, apiSend, setToken, isAuthenticated]
      · simpa [htruthy] using h
  | registerCalled userInfo => exact identityImpliesCredential_of_eq rfl rfl h
  | registerContinued userInfo response =>
    simp only [applyPiece, registerContinued]
    split
    · exact identityImpliesCredential_of_eq rfl rfl h
    · exact h

theorem runPieces_append (w : World) (l m : List Piece) :
    runPieces w (l ++ m) = runPieces (runPieces w l) m := by
  simp [runPieces, List.foldl_append]

/-- The rest of `fetchUser` after the profile request is sent is its pieces, run one after
the other. -/
theorem fetchUserFinish_pieces (w : World) (outcome : Outcome) :
    (fetchUserFinish w outcome).1 = runPieces w (profilePieces outcome) := by
  cases outcome with
  | ok r => rfl
  | error e => rfl

/-- The action `login` is its pieces, run one after the other. -/
theorem login_pieces (w : World) (username password : String)
    (loginOutcome profileOutcome : Outcome) :
    (login w username password loginOutcome profileOutcome).1 =
      runPieces w (.loginCalled username password :: loginPieces loginOutcome profileOutcome) := by
  cases loginOutcome with
  | error e => rfl
  | ok response =>
    have hcases : (∃ t, getStrict response.data "access_token" = .error t) ∨
        (∃ v, getStrict response.data "access_token" = .ok v) := by
      cases getStrict response.data "access_token" with
      | error t => exact Or.inl ⟨t, rfl⟩
      | ok v => exact Or.inr ⟨v, rfl⟩
    rcases hcases with ⟨t, hget⟩ | ⟨accessToken, hget⟩
    · simp [login, loginPieces, deliversToken, runPieces, applyPiece, loginContinued, hget,
        apiReceive]
    · by_cases htruthy : accessToken.truthy = true
      · have hf := fetchUserFinish_pieces
          (fetchUserStart (setToken (apiSend w (loginRequest username password)) accessToken))
          profileOutcome
        have hpieces : runPieces w (.loginCalled username password ::
              loginPieces (.ok response) profileOutcome) =
            runPieces (fetchUserStart
              (setToken (apiSend w (loginRequest username password)) accessToken))
              (profilePieces profileOutcome) := by
          simp [loginPieces, deliversToken, hget, htruthy, runPieces, applyPiece,
            loginContinued, apiReceive]
        rw [hpieces, ← hf]
        simp only [login, apiReceive, hget, htruthy, if_true, fetchUser]
        split <;> simp_all
      · simp [login, loginPieces, deliversToken, runPieces, applyPiece, loginContinued, hget,
          htruthy, apiReceive]

/-- Every whole call of an action is its pieces, run one after the other. -/
theorem step_pieces (w : World) (a : Action) : step w a = runPieces w (actionPieces a) := by
  cases a with
  | setToken token => rfl
  | logout => rfl
  | fetchUser outcome =>
    simp only [step, actionPieces, fetchUser]
    rw [fetchUserFinish_pieces]
    rfl
  | login username password loginOutcome profileOutcome =>
    exact login_pieces w username password loginOutcome profileOutcome
  | register userInfo registerOutcome loginOutcome profileOutcome =>
    cases registerOutcome with
    | error e => rfl
    | ok response =>
      by_cases htruthy : response.data.truthy = true
      · have hl := login_pieces (apiSend w (registerRequest userInfo)) userInfo.email
          userInfo.password loginOutcome profileOutcome
        simp only [step, register, actionPieces, apiReceive, htruthy, if_true]
        rw [show (Piece.registerCalled userInfo :: Piece.responseArrived (.ok response) ::
              Piece.registerContinued userInfo response ::
                loginPieces loginOutcome profileOutcome) =
            [Piece.registerCalled userInfo, Piece.responseArrived (.ok response)] ++
              (Piece.registerContinued userInfo response ::
                loginPieces loginOutcome profileOutcome) from rfl, runPieces_append]
        have hstart : runPieces w
            [Piece.registerCalled userInfo, Piece.responseArrived (.ok response)] =
            apiSend w (registerRequest userInfo) := rfl
        rw [hstart]
        have hcont : runPieces (apiSend w (registerRequest userInfo))
            (Piece.registerContinued userInfo response ::
              loginPieces loginOutcome profileOutcome) =
            runPieces (apiSend w (registerRequest userInfo))
              (Piece.loginCalled userInfo.email userInfo.password ::
                loginPieces loginOutcome profileOutcome) := by
          simp [runPieces, applyPiece, registerContinued, htruthy]
        rw [hcont, ← hl]
        split <;> simp_all
      · simp [step, register, actionPieces, apiReceive, htruthy, runPieces, applyPiece,
          registerContinued]

/-- C8 as stated fails: `fetchUser` called in the initial anonymous state and answered with a
profile leaves a user without a token; `setToken` with the empty string, called after a
successful login, leaves the user of that login with a token that is not present; and a
`logout` that runs while `fetchUser` is suspended at its `await`, in a session restored from
the persisted token `t`, is followed by the answer with the profile, which `fetchUser`
stores: a user without a token. -/
theorem identity_without_credential :
    (run (World.init none) [.fetchUser profileAnswer]).user ≠ .null ∧
    isAuthenticated (run (World.init none) [.fetchUser profileAnswer]) = false ∧
    (run (World.init none)
      [.login "ann" "pw" loginAnswer profileAnswer, .setToken (.str "")]).user ≠ .null ∧
    isAuthenticated (run (World.init none)
      [.login "ann" "pw" loginAnswer profileAnswer, .setToken (.str "")]) = false ∧
    isAuthenticated (World.init (some "t")) = true ∧
    (runPieces (World.init (some "t"))
      [.fetchUserCalled, .logout, .responseArrived profileAnswer,
        .profileStored (.obj [("username", .str "ann")])]).user ≠ .null ∧
    isAuthenticated (runPieces (World.init (some "t"))
      [.fetchUserCalled, .logout, .responseArrived profileAnswer,
        .profileStored (.obj [("username", .str "ann")])]) = false := by
  refine ⟨?_, rfl, ?_, rfl, rfl, ?_, rfl⟩
  · simp [run, step, fetchUser, fetchUserFinish, fetchUserStart, apiReceive, apiSend,
      profileAnswer]
  · simp [run, step, login, loginAnswer, getStrict, JSVal.get, List.lookup, truthy, apiReceive,
      apiSend, fetchUser, fetchUserFinish, fetchUserStart, profileAnswer, setToken]
  · simp [runPieces, applyPiece, fetchUserStart, apiReceive, apiSend, profileAnswer, logout]

/-- C8, amended: in every state reached from an initial state by the actions setToken, login,
fetchUser, logout and register, whose calls may overlap at their awaits in any way, whatever
the server answers, as long as setToken is called with a truthy token (for a string: not
empty) and the token is present whenever fetchUser resumes from its await with a successful
answer and stores the profile, the user is other than null only if the token is present. -/
theorem reachable_identity_implies_credential (w : World) (h : Reachable w) :
    IdentityImpliesCredential w := by
  induction h with
  | init storage =>
    intro hu
    exact absurd rfl hu
  | step w p _ hadm ih => exact applyPiece_invariant w p ih hadm

/-- The state after a sequence of pieces, each admitted where it runs, is reachable. -/
theorem reachable_runPieces (pieces : List Piece) (w : World) (h : Reachable w)
    (hadm : piecesAdmitted w pieces) : Reachable (runPieces w pieces) := by
  induction pieces generalizing w with
  | nil => exact h
  | cons p rest ih => exact ih (applyPiece w p) (Reachable.step w p h hadm.1) hadm.2

/-- C8 at a concrete run: after the pieces of a successful login from the anonymous initial
state the user is set and the token is present. -/
theorem reachable_identity_implies_credential_witness :
    Reachable (runPieces (World.init none)
      (actionPieces (.login "ann" "pw" loginAnswer profileAnswer))) ∧
    (runPieces (World.init none)
      (actionPieces (.login "ann" "pw" loginAnswer profileAnswer))).user ≠ .null ∧
    isAuthenticated (runPieces (World.init none)
      (actionPieces (.login "ann" "pw" loginAnswer profileAnswer))) = true :=
  have hr : Reachable (runPieces (World.init none)
      (actionPieces (.login "ann" "pw" loginAnswer profileAnswer))) :=
    reachable_runPieces _ _ (Reachable.init none)
      ⟨trivial, trivial, trivial, trivial, rfl, trivial⟩
  have hu : (runPieces (World.init none)
      (actionPieces (.login "ann" "pw" loginAnswer profileAnswer))).user ≠ .null := by
    rw [← step_pieces]
    simp [step, login, loginAnswer, getStrict, JSVal.get, List.lookup, truthy, apiReceive,
      apiSend, fetchUser, fetchUserFinish, fetchUserStart, profileAnswer, setToken]
  ⟨hr, hu, reachable_identity_implies_credential _ hr hu⟩

/-- Over calls that do not overlap, the invariant holds as long as `setToken` is called with
a truthy token and `fetchUser` is called while the token is present. -/
theorem run_identity_implies_credential (storage : Option String) (actions : List Action)
    (h : runAdmitted (World.init storage) actions) :
    IdentityImpliesCredential (run (World.init storage) actions) := by
  have key : ∀ (l : List Action) (w : World), IdentityImpliesCredential w → runAdmitted w l →
      IdentityImpliesCredential (run w l) := by
    intro l
    induction l with
    | nil => intro w hw _; exact hw
    | cons a rest ih =>
      intro w hw hadm
      have hstep : IdentityImpliesCredential (step w a) := by
        cases a with
        | setToken token =>
          intro _
          simpa [step, setToken, isAuthenticated, Action.admitted] using hadm.1
        | login username password loginOutcome profileOutcome =>
          exact login_invariant w username password loginOutcome profileOutcome hw
        | fetchUser outcome => exact fetchUser_invariant w outcome hadm.1
        | logout =>
          intro hu
          exact absurd rfl hu
        | register userInfo registerOutcome loginOutcome profileOutcome =>
          exact register_invariant w userInfo registerOutcome loginOutcome profileOutcome hw
      simp only [run, List.foldl_cons]
      exact ih (step w a) hstep hadm.2
  exact key actions _ (fun hu => absurd rfl hu) h

/-! ## Agreement of the store and the persisted entry -/

/-- While the store and the persisted entry agree, the request interceptor of `api` writes the
current token of the store when it is present and returns the request unchanged when it is
absent. -/
theorem apiRequestInterceptor_inSync (w : World) (config : RequestConfig) (h : InSync w) :
    (isAuthenticated w = true →
      (apiRequestInterceptor w config).authorization = some ("Bearer " ++ w.token.toStr)) ∧
    (isAuthenticated w = false → apiRequestInterceptor w config = config) := by
  constructor
  · intro ha
    obtain ⟨hs, hne⟩ := h.1 ha
    exact (apiRequestInterceptor_spec w config).1 _ hs hne
  · intro ha
    rcases h.2 ha with hs | hs
    · exact (apiRequestInterceptor_spec w config).2.1 hs
    · exact (apiRequestInterceptor_spec w config).2.2 hs

theorem inSync_of_eq {w v : World} (ht : v.token = w.token) (hs : v.storage = w.storage)
    (h : InSync w) : InSync v := by
  unfold InSync at h ⊢
  rw [ht, hs]
  exact h

theorem inSync_init (storage : Option String) : InSync (World.init storage) := by
  cases storage with
  | none => simp [InSync, World.init, storedToken, truthy]
  | some t =>
    by_cases ht : t = ""
    · simp [InSync, World.init, storedToken, truthy, ht]
    · simp [InSync, World.init, storedToken, truthy, ht, JSVal.toStr]

theorem inSync_setToken (w : World) (t : String) : InSync (setToken w (.str t)) := by
  by_cases ht : t = "" <;> simp [InSync, setToken, truthy, ht, JSVal.toStr]

theorem inSync_logout (w : World) : InSync (logout w) := by
  simp [InSync, logout, truthy]

theorem apiSend_storage (w : World) (config : RequestConfig) :
    (apiSend w config).storage = w.storage := rfl

theorem apiReceive_storage (w : World) (outcome : Outcome) (h : ¬Unauthorized outcome) :
    (apiReceive w outcome).1.storage = w.storage := by
  cases outcome with
  | ok r => rfl
  | error e =>
    have h401 : ¬(e.response.map (·.status) = some 401) := fun hc => h ⟨e, rfl, hc⟩
    simp [apiReceive, apiResponseError, notify, h401]

/-- The action `fetchUser` keeps the agreement, whatever the answer. -/
theorem fetchUser_inSync (w : World) (outcome : Outcome) (h : InSync w) :
    InSync (fetchUser w outcome).1 := by
  cases outcome with
  | ok r => exact inSync_of_eq rfl rfl h
  | error e =>
    simp only [fetchUser, fetchUserFinish, apiReceive]
    exact inSync_logout _

/-- The action `login` keeps the agreement when its request is not answered with status 401 and
the access token is a string. -/
theorem login_inSync (w : World) (username password : String)
    (loginOutcome profileOutcome : Outcome) (h : InSync w)
    (h401 : ¬Unauthorized loginOutcome) (hstr : StringToken loginOutcome) :
    InSync (login w username password loginOutcome profileOutcome).1 := by
  have base : InSync (apiReceive (apiSend w (loginRequest username password)) loginOutcome).1 :=
    inSync_of_eq ((apiReceive_token _ _).1.trans (apiSend_token _ _).1)
      ((apiReceive_storage _ _ h401).trans (apiSend_storage _ _)) h
  cases loginOutcome with
  | error e => simpa [login, apiReceive] using base
  | ok response =>
    simp only [login, apiReceive] at base ⊢
    cases hget : getStrict response.data "access_token" with
    | error t => simpa using base
    | ok accessToken =>
      by_cases htruthy : accessToken.truthy = true
      · obtain ⟨t, rfl⟩ := hstr response accessToken rfl hget htruthy
        have := fetchUser_inSync _ profileOutcome
          (inSync_setToken (apiSend w (loginRequest username password)) t)
        simp only [htruthy, if_true]
        split <;> simp_all
      · simpa [htruthy] using base

/-- The action `register` keeps the agreement when its requests are not answered with status
401 and the access token is a string. -/
theorem register_inSync (w : World) (userInfo : UserInfo)
    (registerOutcome loginOutcome profileOutcome : Outcome) (h : InSync w)
    (hreg : ¬Unauthorized registerOutcome) (h401 : ¬Unauthorized loginOutcome)
    (hstr : StringToken loginOutcome) :
    InSync (register w userInfo registerOutcome loginOutcome profileOutcome).1 := by
  have base : InSync (apiReceive (apiSend w (registerRequest userInfo)) registerOutcome).1 :=
    inSync_of_eq ((apiReceive_token _ _).1.trans (apiSend_token _ _).1)
      ((apiReceive_storage _ _ hreg).trans (apiSend_storage _ _)) h
  cases registerOutcome with
  | error e => simpa [register, apiReceive] using base
  | ok response =>
    simp only [register, apiReceive] at base ⊢
    by_cases htruthy : response.data.truthy = true
    · have := login_inSync _ userInfo.email userInfo.password loginOutcome profileOutcome base
        h401 hstr
      simp only [htruthy, if_true]
      split <;> simp_all
    · simpa [htruthy] using base

/-- Every run of the store from an initial state keeps the agreement, as long as `setToken`
receives strings, the access tokens are strings and no request of `login` or `register` is
answered with status 401. -/
theorem run_inSync (storage : Option String) (actions : List Action)
    (h : ∀ a ∈ actions, a.quiet) : InSync (run (World.init storage) actions) := by
  have key : ∀ (l : List Action) (w : World), InSync w → (∀ a ∈ l, a.quiet) →
      InSync (run w l) := by
    intro l
    induction l with
    | nil => intro w hw _; exact hw
    | cons a rest ih =>
      intro w hw hq
      have ha : a.quiet := hq a (List.mem_cons_self _ _)
      have hstep : InSync (step w a) := by
        cases a with
        | setToken token =>
          obtain ⟨t, rfl⟩ := ha
          exact inSync_setToken w t
        | login username password loginOutcome profileOutcome =>
          exact login_inSync w username password loginOutcome profileOutcome hw ha.1 ha.2
        | fetchUser outcome => exact fetchUser_inSync w outcome hw
        | logout => exact inSync_logout w
        | register userInfo registerOutcome loginOutcome profileOutcome =>
          exact register_inSync w userInfo registerOutcome loginOutcome profileOutcome hw
            ha.1 ha.2.1 ha.2.2
      simp only [run, List.foldl_cons]
      exact ih (step w a) hstep fun b hb => hq b (List.mem_cons_of_mem _ hb)
  exact key actions _ (inSync_init storage) h

/-! ## The credential of a request through `api` once the guard has run -/

/-- In a settled state a request through `api` that sets no Authorization header of its own
is sent with the current token of the store when it is present, also after the persisted
entry has been removed by a status 401; when the token is absent the interceptor returns the
merged request unchanged. -/
theorem apiRequest_settled (w : World) (config : RequestConfig) (h : Settled w)
    (hown : config.authorization = none) :
    (isAuthenticated w = true →
      (apiRequestInterceptor w (apiMergeDefaults w config)).authorization =
        some ("Bearer " ++ w.token.toStr)) ∧
    (isAuthenticated w = false →
      apiRequestInterceptor w (apiMergeDefaults w config) = apiMergeDefaults w config) := by
  have hlookup : config.headers.lookup "Authorization" = none := hown
  constructor
  · intro ha
    obtain ⟨hdefault, hstorage⟩ := h.1 ha
    have hmerge : apiMergeDefaults w config =
        { config with
          headers := config.headers ++ [("Authorization", "Bearer " ++ w.token.toStr)] } := by
      simp [apiMergeDefaults, hdefault, hlookup]
    have hmerged : (apiMergeDefaults w config).authorization =
        some ("Bearer " ++ w.token.toStr) := by
      rw [hmerge]
      exact lookup_append_new config.headers "Authorization" _ hlookup
    rcases hstorage with hs | hs
    · rw [(apiRequestInterceptor_spec w _).2.1 hs]
      exact hmerged
    · by_cases hempty : w.token.toStr = ""
      · rw [hempty] at hs
        rw [(apiRequestInterceptor_spec w _).2.2 hs]
        exact hmerged
      · exact (apiRequestInterceptor_spec w _).1 _ hs hempty
  · intro ha
    rcases h.2 ha with hs | hs
    · exact (apiRequestInterceptor_spec w _).2.1 hs
    · exact (apiRequestInterceptor_spec w _).2.2 hs

theorem settled_of_eq {w v : World} (ht : v.token = w.token) (hs : v.storage = w.storage)
    (hd : v.apiDefaultAuth = w.apiDefaultAuth) (h : Settled w) : Settled v := by
  unfold Settled at h ⊢
  rw [ht, hs, hd]
  exact h

theorem settled_setToken (w : World) (token : JSVal)
    (h : token.truthy = true ∨ token = .str "") : Settled (setToken w token) := by
  rcases h with h | h
  · simp [Settled, setToken, h]
  · subst h
    simp [Settled, setToken, truthy, JSVal.toStr]

theorem settled_logout (w : World) : Settled (logout w) := by
  simp [Settled, logout, truthy]

/-- The rejection handler of `api` keeps a settled state settled, also on a status 401. -/
theorem settled_apiResponseError (w : World) (error : AxiosError) (h : Settled w) :
    Settled (apiResponseError w error).1 := by
  simp only [apiResponseError, notify]
  split
  · constructor
    · intro ht
      exact ⟨(h.1 ht).1, Or.inl rfl⟩
    · intro _
      exact Or.inl rfl
  · exact h

/-- The rejection handler of `http` keeps a settled state settled. -/
theorem settled_httpResponseError (w : World) (error : AxiosError) (h : Settled w) :
    Settled (httpResponseError w error).1 := by
  refine settled_of_eq ?_ ?_ ?_ h <;>
  · simp only [httpResponseError, notify]
    repeat' split
    all_goals rfl

theorem settled_apiReceive (w : World) (outcome : Outcome) (h : Settled w) :
    Settled (apiReceive w outcome).1 := by
  cases outcome with
  | ok r => exact h
  | error e => exact settled_apiResponseError w e h

/-- Every piece of an action of the store keeps a settled state settled, whatever the server
answers, as long as `setToken` receives a truthy token or the empty string. -/
theorem settled_applyPiece (w : World) (p : Piece) (h : Settled w)
    (hset : ∀ token, p = .setToken token → token.truthy = true ∨ token = .str "") :
    Settled (applyPiece w p) := by
  cases p with
  | setToken token => exact settled_setToken w token (hset token rfl)
  | logout => exact settled_logout w
  | fetchUserCalled => exact settled_of_eq rfl rfl rfl h
  | responseArrived outcome => exact settled_apiReceive w outcome h
  | profileStored data => exact settled_of_eq rfl rfl rfl h
  | loginCalled username password => exact settled_of_eq rfl rfl rfl h
  | loginContinued response =>
    simp only [applyPiece, loginContinued]
    cases hget : getStrict response.data "access_token" with
    | error t => exact h
    | ok accessToken =>
      by_cases htruthy : accessToken.truthy = true
      · simp only [htruthy, if_true]
        exact settled_of_eq rfl rfl rfl (settled_setToken w accessToken (Or.inl htruthy))
      · simpa [htruthy] using h
  | registerCalled userInfo => exact settled_of_eq rfl rfl rfl h
  | registerContinued userInfo response =>
    simp only [applyPiece, registerContinued]
    split
    · exact settled_of_eq rfl rfl rfl h
    · exact h

/-- The first step of the guard, run in the initial state of the application, establishes a
settled state; so does the evaluation of `utils/http.js`, which does not touch the copies
that `api` reads. -/
theorem settled_guardStart (storage : Option String) (target : Route) :
    Settled (guardStart (World.init storage) target).1 ∧
    Settled (guardStart (loadHttp (World.init storage)) target).1 := by
  cases storage with
  | none => simp [guardStart, World.init, loadHttp, Settled, storedToken, truthy]
  | some t =>
    by_cases ht : t = ""
    · simp [guardStart, World.init, loadHttp, Settled, storedToken, truthy, ht]
    · simp [guardStart, World.init, loadHttp, Settled, storedToken, truthy, ht, fetchUserStart,
        apiSend, setToken, JSVal.toStr]

/-- The rest of a suspended invocation of the guard keeps a settled state settled. -/
theorem settled_guardHydrated (w : World) (outcome : Outcome) (h : Settled w) :
    Settled (guardHydrated w outcome) := by
  cases outcome with
  | ok r => exact settled_of_eq rfl rfl rfl h
  | error e =>
    simp only [guardHydrated, fetchUserFinish, apiReceive]
    exact settled_of_eq rfl rfl rfl (settled_logout w)

/-! ## Login, logout, login -/

/-- A successful login: the token of the answer is installed in the store, in the persisted
entry and in the default header, the user is the profile of the answer, the action
returns `true`. -/
theorem login_success (w : World) (username password : String) (loginResponse : Response)
    (profileResponse : Response) (t : String) (ht : t ≠ "")
    (haccess : getStrict loginResponse.data "access_token" = .ok (.str t)) :
    (login w username password (.ok loginResponse) (.ok profileResponse)).2 = .ok true ∧
    (login w username password (.ok loginResponse) (.ok profileResponse)).1.token = .str t ∧
    (login w username password (.ok loginResponse) (.ok profileResponse)).1.storage = some t ∧
    (login w username password (.ok loginResponse) (.ok profileResponse)).1.apiDefaultAuth =
      some ("Bearer " ++ t) ∧
    (login w username password (.ok loginResponse) (.ok profileResponse)).1.user =
      profileResponse.data := by
  simp [login, apiReceive, haccess, truthy, ht, fetchUser, fetchUserFinish, fetchUserStart,
    apiSend, setToken, JSVal.toStr]

/-- C9: for every initial state and every two successful logins with the non-empty tokens t1
and t2, each followed by a successful profile request, the sequence login, logout, login ends
authenticated with token = t2, persisted entry = t2, default header = Bearer t2 and the
second profile as user; right after the logout in between the token and the user are null
and neither a persisted entry nor a default header is left. -/
theorem login_logout_login (w : World) (u1 p1 u2 p2 : String)
    (login1 profile1 login2 profile2 : Response) (t1 t2 : String)
    (h1 : t1 ≠ "") (h2 : t2 ≠ "")
    (ha1 : getStrict login1.data "access_token" = .ok (.str t1))
    (ha2 : getStrict login2.data "access_token" = .ok (.str t2)) :
    (login (logout (login w u1 p1 (.ok login1) (.ok profile1)).1) u2 p2
      (.ok login2) (.ok profile2)).2 = .ok true ∧
    isAuthenticated (login (logout (login w u1 p1 (.ok login1) (.ok profile1)).1) u2 p2
      (.ok login2) (.ok profile2)).1 = true ∧
    (login (logout (login w u1 p1 (.ok login1) (.ok profile1)).1) u2 p2
      (.ok login2) (.ok profile2)).1.token = .str t2 ∧
    (login (logout (login w u1 p1 (.ok login1) (.ok profile1)).1) u2 p2
      (.ok login2) (.ok profile2)).1.storage = some t2 ∧
    (login (logout (login w u1 p1 (.ok login1) (.ok profile1)).1) u2 p2
      (.ok login2) (.ok profile2)).1.apiDefaultAuth = some ("Bearer " ++ t2) ∧
    (login (logout (login w u1 p1 (.ok login1) (.ok profile1)).1) u2 p2
      (.ok login2) (.ok profile2)).1.user = profile2.data ∧
    (login w u1 p1 (.ok login1) (.ok profile1)).1.token = .str t1 ∧
    (logout (login w u1 p1 (.ok login1) (.ok profile1)).1).token = .null ∧
    (logout (login w u1 p1 (.ok login1) (.ok profile1)).1).user = .null ∧
    (logout (login w u1 p1 (.ok login1) (.ok profile1)).1).storage = none ∧
    (logout (login w u1 p1 (.ok login1) (.ok profile1)).1).apiDefaultAuth = none := by
  have first := login_success w u1 p1 login1 profile1 t1 h1 ha1
  have second := login_success (logout (login w u1 p1 (.ok login1) (.ok profile1)).1) u2 p2
    login2 profile2 t2 h2 ha2
  refine ⟨second.1, ?_, second.2.1, second.2.2.1, second.2.2.2.1, second.2.2.2.2, first.2.1,
    rfl, rfl, rfl, rfl⟩
  simp [isAuthenticated, second.2.1, truthy, h2]

/-- C9 at a concrete input: the tokens `a` and `b`. -/
theorem login_logout_login_witness :
    (login (logout (login (World.init none) "ann" "pw"
        (.ok { status := 200, data := .obj [("access_token", .str "a")] })
        (.ok { status := 200, data := .obj [("username", .str "ann")] })).1) "bob" "pw"
      (.ok { status := 200, data := .obj [("access_token", .str "b")] })
      (.ok { status := 200, data := .obj [("username", .str "bob")] })).1.token = .str "b" :=
  (login_logout_login (World.init none) "ann" "pw" "bob" "pw"
    { status := 200, data := .obj [("access_token", .str "a")] }
    { status := 200, data := .obj [("username", .str "ann")] }
    { status := 200, data := .obj [("access_token", .str "b")] }
    { status := 200, data := .obj [("username", .str "bob")] } "a" "b"
    (by decide) (by decide) rfl rfl).2.2.1

/-! ## The one-shot hydration of the guard -/

/-- Once the flag is set, an invocation of the guard runs to its end without a request and
leaves the state as it is. -/
theorem guardStart_done (w : World) (target : Route) (h : w.initialAuthCheckDone = true) :
    guardStart w target = (w, some (guardDecision w target)) := by
  simp [guardStart, h]

/-- The second half of an invocation sets the flag and sends no request, whatever the answer
of the server. -/
theorem guardResume_done (w : World) (target : Route) (outcome : Outcome) :
    (guardResume w target outcome).1.initialAuthCheckDone = true ∧
    (guardResume w target outcome).1.sent = w.sent := by
  cases outcome with
  | ok r => exact ⟨rfl, rfl⟩
  | error e =>
    simp only [guardResume, guardHydrated, fetchUserFinish, apiReceive, apiResponseError,
      notify, logout]
    split <;> simp

/-- Once the flag is set, no sequence of events of the router sends a profile request: the
hydration is not run again on later navigations, also when it failed. -/
theorem hydrations_run_of_done (s : GuardSystem) (events : List GuardEvent)
    (h : s.world.initialAuthCheckDone = true) :
    (s.run events).world.initialAuthCheckDone = true ∧
    hydrations (s.run events).world = hydrations s.world := by
  induction events generalizing s with
  | nil => exact ⟨h, rfl⟩
  | cons e rest ih =>
    have hstep : (s.step e).world.initialAuthCheckDone = true ∧
        (s.step e).world.sent = s.world.sent := by
      cases e with
      | navigate target =>
        simp [GuardSystem.step, guardStart_done s.world target h, h]
      | answer index outcome =>
        simp only [GuardSystem.step]
        cases s.pending.get? index with
        | none => exact ⟨h, rfl⟩
        | some target => exact guardResume_done s.world target outcome
    have := ih (s.step e) hstep.1
    simp only [GuardSystem.run, List.foldl_cons] at this ⊢
    refine ⟨this.1, this.2.trans ?_⟩
    simp [hydrations, hstep.2]

/-- C10, evaluated on two navigations that start before the profile request of the first is
answered, in an application started with the persisted token `t`: each of the two
invocations finds the flag unset, since the flag is set only after the `await`, and each
starts `fetchUser`: two profile requests are sent, and both invocations are suspended. -/
theorem hydration_started_twice :
    hydrations
      ((GuardSystem.run { world := World.init (some "t"), pending := [] }
        [.navigate subjectsRoute, .navigate loginRoute]).world) = 2 ∧
    ((GuardSystem.run { world := World.init (some "t"), pending := [] }
        [.navigate subjectsRoute, .navigate loginRoute]).pending.length) = 2 ∧
    ((GuardSystem.run { world := World.init (some "t"), pending := [] }
        [.navigate subjectsRoute, .navigate loginRoute]).world.initialAuthCheckDone) = false :=
  ⟨rfl, rfl, rfl⟩

/-- An invocation of the guard that runs without interruption sets the flag and starts at most
one hydration. -/
theorem guard_done (w : World) (target : Route) (outcome : Outcome) :
    (guard w target outcome).1.initialAuthCheckDone = true ∧
    hydrations (guard w target outcome).1 ≤ hydrations w + 1 := by
  unfold guard
  by_cases hflag : w.initialAuthCheckDone = true
  · simp [guardStart_done w target hflag, hflag]
  · have hf : w.initialAuthCheckDone = false := by simpa using hflag
    cases hs : w.storage with
    | none => simp [guardStart, hf, hs, hydrations]
    | some token =>
      by_cases ht : token = ""
      · simp [guardStart, hf, hs, ht, hydrations]
      · have hstart : guardStart w target = (fetchUserStart (setToken w (.str token)), none) := by
          simp [guardStart, hf, hs, ht]
        rw [hstart]
        refine ⟨(guardResume_done _ target outcome).1, ?_⟩
        simp only [hydrations, (guardResume_done _ target outcome).2]
        simp only [fetchUserStart, apiSend, setToken, List.filter_append, List.length_append]
        exact Nat.add_le_add_left (List.length_filter_le _ _) _

/-- Over invocations of the guard that do not overlap, at most one hydration is started,
whatever the answers of the server. -/
theorem guardSequence_hydrations (w : World) (navigations : List (Route × Outcome)) :
    hydrations (guardSequence w navigations) ≤ hydrations w + 1 := by
  cases navigations with
  | nil => exact Nat.le_succ _
  | cons n rest =>
    have hfirst := guard_done w n.1 n.2
    have hrest : ∀ (l : List (Route × Outcome)) (v : World), v.initialAuthCheckDone = true →
        guardSequence v l = v := by
      intro l
      induction l with
      | nil => intro v _; rfl
      | cons m tail ih =>
        intro v hv
        have hm : (guard v m.1 m.2).1 = v := by simp [guard, guardStart_done v m.1 hv]
        simp only [guardSequence, List.foldl_cons, hm]
        exact ih v hv
    simp only [guardSequence, List.foldl_cons]
    have := hrest rest _ hfirst.1
    simp only [guardSequence] at this
    rw [this]
    exact hfirst.2

/-- Two invocations of the guard that overlap reach a user without a token: both start a
hydration, the first profile request fails, which clears the session, then the second is
answered with a profile, which is stored as user. -/
theorem guard_overlap_user_without_token :
    ((GuardSystem.run { world := World.init (some "t"), pending := [] }
        [.navigate subjectsRoute, .navigate subjectsRoute,
          .answer 0 (.error unauthorized), .answer 0 profileAnswer]).world.user) =
      .obj [("username", .str "ann")] ∧
    isAuthenticated ((GuardSystem.run { world := World.init (some "t"), pending := [] }
        [.navigate subjectsRoute, .navigate subjectsRoute,
          .answer 0 (.error unauthorized), .answer 0 profileAnswer]).world) = false ∧
    ((GuardSystem.run { world := World.init (some "t"), pending := [] }
        [.navigate subjectsRoute, .navigate subjectsRoute,
          .answer 0 (.error unauthorized), .answer 0 profileAnswer]).pending) = [] :=
  ⟨rfl, rfl, rfl⟩

/-! ## A status 401 that arrives after the logout -/

/-- C11 as stated fails: for a request issued from `/subjects`, answered with status 401 after
a logout, the one navigation is the push of the string `/login`, whose query is empty, so it
does not carry `/subjects` as redirect target; the guard lets the navigation to Login go on
as it is and adds no query either. -/
theorem logoutThenResponse_no_redirect :
    (logoutThenResponse signedIn { origin := "/subjects", error := unauthorized }).1.pushed =
      ["/login"] ∧
    pushQuery "/login" = [] ∧
    pushQuery "/login" ≠ redirectQuery "/subjects" ∧
    guardDecision
      (logoutThenResponse signedIn { origin := "/subjects", error := unauthorized }).1
      loginRoute = .proceed := by
  refine ⟨rfl, rfl, ?_, rfl⟩
  decide

/-- C11, amended: for every request issued from a path p, if logout() runs before the response
arrives and the response then has status 401, the rejection handler of `http` leaves the
session anonymous (token = null, user = null, no persisted entry, no default header: the
handler changes nothing of the session), raises one notification, issues exactly one
navigation, the push of `/login`, a location without a query, whatever p is, and rejects
with the original error; the guard lets that navigation to Login go on unchanged. -/
theorem logoutThenResponse_unauthorized (w : World) (p message : String) (data : JSVal) :
    (logoutThenResponse w
      { origin := p,
        error := { message := message, response := some { status := 401, data := data } } }) =
      ({ logout w with messages := w.messages ++ [.str "未授权，请重新登录"],
                       pushed := w.pushed ++ ["/login"] },
        .transport { message := message, response := some { status := 401, data := data } }) ∧
    (logoutThenResponse w
      { origin := p,
        error := { message := message,
                   response := some { status := 401, data := data } } }).1.token = .null ∧
    (logoutThenResponse w
      { origin := p,
        error := { message := message,
                   response := some { status := 401, data := data } } }).1.user = .null ∧
    (logoutThenResponse w
      { origin := p,
        error := { message := message,
                   response := some { status := 401, data := data } } }).1.storage = none ∧
    isAuthenticated (logoutThenResponse w
      { origin := p,
        error := { message := message,
                   response := some { status := 401, data := data } } }).1 = false ∧
    (logoutThenResponse w
      { origin := p,
        error := { message := message,
                   response := some { status := 401, data := data } } }).1.pushed =
      w.pushed ++ ["/login"] ∧
    pushQuery "/login" = [] ∧
    guardDecision (logoutThenResponse w
      { origin := p,
        error := { message := message,
                   response := some { status := 401, data := data } } }).1 loginRoute =
      .proceed := by
  have h : (logoutThenResponse w
      { origin := p,
        error := { message := message, response := some { status := 401, data := data } } }) =
      ({ logout w with messages := w.messages ++ [.str "未授权，请重新登录"],
                       pushed := w.pushed ++ ["/login"] },
        .transport { message := message, response := some { status := 401, data := data } }) := by
    simp [logoutThenResponse, httpResponseError, notify, logout]
  refine ⟨h, ?_, ?_, ?_, ?_, ?_, rfl, ?_⟩ <;> rw [h] <;>
    simp [logout, isAuthenticated, truthy, guardDecision, loginRoute]

end AiStudy
